import Mathlib

set_option maxRecDepth 4000

/-!
Verification development for the Review Intelligence Analytics Engine of the
Sentiment-analysis repository.  The Python sources are shallowly embedded:
numeric ratings and floats become `ℚ`, Python `None` becomes `Option`,
dictionaries become insertion-ordered association lists, and Python's stable
`sorted` becomes `List.insertionSort` (a stable insertion sort, extensionally
equal to any stable sort for a total preorder key).
Primary sources: `review_saas/app/routes/reviews.py`,
`review_saas/review_saas/app/scheduler.py`,
`reviewai_railway_saas/app/services/sentiment.py`.
-/

/-- Python `round(x)` (no digits argument): round half to even, as an integer. -/
def roundHalfEven (q : ℚ) : ℤ :=
  let f := ⌊q⌋
  let frac := q - f
  if frac < 1/2 then f
  else if 1/2 < frac then f + 1
  else if f % 2 = 0 then f else f + 1

/-- Python `round(x, 2)`: round half to even at two decimal places. -/
def round2 (q : ℚ) : ℚ := (roundHalfEven (q * 100) : ℚ) / 100

/-- Python `round(x, 1)`: round half to even at one decimal place. -/
def round1 (q : ℚ) : ℚ := (roundHalfEven (q * 10) : ℚ) / 10

/-- A timezone-normalized (UTC) datetime, as produced by `_parse_review_date`. -/
structure PyDateTime where
  year : ℕ
  month : ℕ
  day : ℕ
  hour : ℕ
  minute : ℕ
  second : ℕ
deriving DecidableEq, Repr

/-- Order-preserving encoding of an in-range datetime; datetime comparison in
Python is lexicographic on the fields, which this encoding realizes for
calendar-valid field values. -/
def PyDateTime.key (d : PyDateTime) : ℕ :=
  ((((d.year * 13 + d.month) * 32 + d.day) * 24 + d.hour) * 60 + d.minute) * 60 + d.second

def PyDateTime.le (a b : PyDateTime) : Prop := a.key ≤ b.key

def PyDateTime.lt (a b : PyDateTime) : Prop := a.key < b.key

instance : DecidablePred fun p : PyDateTime × PyDateTime => PyDateTime.le p.1 p.2 :=
  fun p => inferInstanceAs (Decidable (p.1.key ≤ p.2.key))

instance (a b : PyDateTime) : Decidable (PyDateTime.le a b) :=
  inferInstanceAs (Decidable (a.key ≤ b.key))

instance (a b : PyDateTime) : Decidable (PyDateTime.lt a b) :=
  inferInstanceAs (Decidable (a.key < b.key))

/-- Zero-padded decimal rendering used by `strftime` and `isoformat`. -/
def padNum (width : ℕ) (n : ℕ) : String :=
  let s := toString n
  String.mk (List.replicate (width - s.length) '0') ++ s

/-- `dt.strftime("%Y-%m")` (line 559 of reviews.py). -/
def PyDateTime.toYM (d : PyDateTime) : String :=
  padNum 4 d.year ++ "-" ++ padNum 2 d.month

/-- `dt.isoformat()` for a UTC-aware datetime without microseconds. -/
def PyDateTime.iso (d : PyDateTime) : String :=
  padNum 4 d.year ++ "-" ++ padNum 2 d.month ++ "-" ++ padNum 2 d.day ++ "T" ++
    padNum 2 d.hour ++ ":" ++ padNum 2 d.minute ++ ":" ++ padNum 2 d.second ++ "+00:00"

/-- `classify_sentiment` from `review_saas/app/routes/reviews.py` lines 65-72
(identical in `reviewai_railway_saas/app/services/sentiment.py` lines 3-10). -/
def classify_sentiment (rating : Option ℚ) : String :=
  match rating with
  | none => "Neutral"
  | some r =>
    if r ≥ 4 then "Positive"
    else if r = 3 then "Neutral"
    else "Negative"

/-- One monthly point of `trend_data_list`: keys `month`, `avg_rating`, `count`. -/
structure TrendPoint where
  month : String
  avg_rating : ℚ
  count : ℕ
deriving DecidableEq, Repr

/-- The dictionary returned by `_detect_trend`: keys `signal`, `delta`, `note`.
The `note` is optional because the empty-window summary branch builds a trend
dictionary without a `note` key. -/
structure TrendSignal where
  signal : String
  delta : ℚ
  note : Option String
deriving DecidableEq, Repr

/-- Mean of the `avg_rating` fields (`sum(...) / len(...)`). -/
def meanAvgRating (pts : List TrendPoint) : ℚ :=
  (pts.map TrendPoint.avg_rating).sum / pts.length

/-- `_detect_trend` from `review_saas/app/routes/reviews.py` lines 179-192.
`data[-3:]` is `drop (len-3)`, `data[-6:-3]` (taken only when `len ≥ 6`) is
`(drop (len-6)).take 3`; Python's stable `sorted` by the month key is
`List.insertionSort`. -/
def _detect_trend (trend_data_list : List TrendPoint) : TrendSignal :=
  if trend_data_list.length < 3 then
    ⟨"insufficient_data", 0, some "Less than 3 months of data"⟩
  else
    let data := List.insertionSort (fun a b => a.month ≤ b.month) trend_data_list
    let last3 := data.drop (data.length - 3)
    let prev3 := if 6 ≤ data.length then (data.drop (data.length - 6)).take 3 else []
    let last_avg := meanAvgRating last3
    let prev_avg := if prev3 = [] then last_avg else meanAvgRating prev3
    let delta := round2 (last_avg - prev_avg)
    if delta ≤ -3/10 then ⟨"declining", delta, some "Recent ratings down vs earlier window"⟩
    else if delta ≥ 3/10 then ⟨"improving", delta, some "Recent ratings up vs earlier window"⟩
    else ⟨"stable", delta, some "No material change in trend"⟩

/-- `str.lower()` (ASCII model; review texts in scope are ASCII). -/
def pyLower (s : String) : String := String.mk (s.data.map Char.toLower)

/-- `_normalize_text` (lines 81-82): lowercase, then `re.sub(r"[^\w\s]", " ", ·)`
replacing every non-word, non-whitespace character by a space (`\w` modeled as
ASCII alphanumeric or underscore). -/
def _normalize_text (text : Option String) : String :=
  String.mk ((pyLower (text.getD "")).data.map fun c =>
    if c.isAlphanum || c = '_' || c.isWhitespace then c else ' ')

/-- Python `str.split()` with no separator: split on whitespace runs, dropping
empty pieces.  The accumulator holds the current token reversed. -/
def splitWsAux : List Char → List Char → List String
  | [], acc => if acc = [] then [] else [String.mk acc.reverse]
  | c :: cs, acc =>
    if c.isWhitespace then
      (if acc = [] then splitWsAux cs [] else String.mk acc.reverse :: splitWsAux cs [])
    else splitWsAux cs (c :: acc)

def pySplitWs (s : String) : List String := splitWsAux s.data []

/-- `_STOPWORDS` (lines 74-79). -/
def _STOPWORDS : List String :=
  ["a", "an", "and", "are", "as", "at", "be", "by", "for", "from",
   "the", "this", "is", "it", "to", "with", "was", "of", "in", "on",
   "or", "we", "you", "our", "your", "but", "not", "they", "them",
   "very", "really", "just", "too"]

/-- `extract_keywords` (lines 84-88). -/
def extract_keywords (text : Option String) : List String :=
  match text with
  | none => []
  | some t =>
    if t = "" then []
    else (pySplitWs (_normalize_text (some t))).filter fun w =>
      w ∉ _STOPWORDS ∧ 2 < w.length

/-- `extract_bigrams` (lines 90-93). -/
def extract_bigrams (tokens : List String) : List String :=
  if tokens.length < 2 then []
  else (tokens.zip tokens.tail).map fun p => p.1 ++ " " ++ p.2

/-- `ASPECT_LEXICON` (lines 95-104), in source dictionary order. -/
def ASPECT_LEXICON : List (String × List String) :=
  [("Service", ["service", "staff", "attitude", "rude", "friendly", "helpful", "manager"]),
   ("Speed", ["wait", "slow", "delay", "queue", "time", "late"]),
   ("Price", ["price", "expensive", "cheap", "overpriced", "value"]),
   ("Cleanliness", ["clean", "dirty", "smell", "hygiene", "washroom"]),
   ("Quality", ["quality", "defect", "broken", "taste", "fresh", "stale", "cold"]),
   ("Availability", ["stock", "availability", "sold", "out", "item"]),
   ("Environment", ["noise", "crowd", "parking", "space", "ambience"]),
   ("Digital", ["payment", "card", "terminal", "app", "crash", "online", "wifi"])]

/-- `map_tokens_to_aspects` (lines 106-113).  The source collects hits in a
Python set and returns `list(hits)`; the hit order of that set is not
specified, so the model returns hits in the (deterministic) lexicon iteration
order in which they are inserted.  No theorem below depends on this order. -/
def map_tokens_to_aspects (tokens : List String) : List String :=
  (ASPECT_LEXICON.filter fun al => al.2.any fun word => word ∈ tokens).map (·.1)

/-- `ACTION_MAP` (lines 115-136), in source dictionary order. -/
def ACTION_MAP : List (String × String) :=
  [("wait", "Optimize peak-hour staffing and enable queue management to reduce waiting times."),
   ("slow", "Introduce service SLAs and staff cross-training to speed up fulfillment."),
   ("service", "Launch a service excellence workshop and implement a QA checklist."),
   ("attitude", "Coach frontline staff on tone, empathy, and recovery scripts."),
   ("price", "Review pricing strategy vs competitors and introduce transparent offers."),
   ("expensive", "Consider tiered pricing, bundles, or value-add to offset price sensitivity."),
   ("overpriced", "Run a competitive pricing audit and publish price-matching policy."),
   ("clean", "Increase cleanliness checks and janitorial frequency with checklists."),
   ("dirty", "Run a deep-clean schedule; assign daily ownership and spot checks."),
   ("quality", "Audit suppliers and batch QA; implement defect capture & feedback loop."),
   ("defect", "Add incoming QC and RMA triage to reduce defect recurrence."),
   ("taste", "Run blind A/B tests and calibrate recipes / sourcing."),
   ("stock", "Improve demand forecasting; set minimum stock alerts for fast-movers."),
   ("availability", "Share stockout dashboards and add substitutions / backorder flows."),
   ("noise", "Introduce quiet hours / acoustic dampening, and seat zoning."),
   ("crowd", "Implement reservation windows and dynamic staffing for peak periods."),
   ("payment", "Add more payment options and reliability monitoring for terminals."),
   ("app", "Improve app reliability, add in-app feedback capture for crashes."),
   ("rude", "Reinforce code-of-conduct and coaching with role-play and audits."),
   ("manager", "Increase manager-on-duty coverage and escalation visibility.")]

/-- Substring test `needle in k` on character lists. -/
def charsStartsWith : List Char → List Char → Bool
  | [], _ => true
  | _ :: _, [] => false
  | a :: as, b :: bs => a = b && charsStartsWith as bs

def charsContains (needle hay : List Char) : Bool :=
  match hay with
  | [] => charsStartsWith needle []
  | _ :: rest => charsStartsWith needle hay || charsContains needle rest

/-- `_action_for_keyword` (lines 138-143): first `needle in k` hit of the
action map, else the generic fallback. -/
def _action_for_keyword (keyword : String) : String :=
  let k := pyLower keyword
  match ACTION_MAP.find? fun na => charsContains na.1.data k.data with
  | some na => na.2
  | none => "Conduct root-cause analysis and monitor sentiment trends; run a 5-Whys workshop."

/-- A stored review row (`Review` model columns used by the analytics code). -/
structure Review where
  id : ℕ
  text : Option String
  rating : Option ℚ
  reviewer_name : Option String
  review_date : Option PyDateTime
deriving DecidableEq, Repr

/-- The company columns read by the summary code.  `google_rating` and
`user_ratings_total` are modeled non-optional (their `None` handling never
matters to the claims below). -/
structure Company where
  name : String
  google_rating : ℚ
  user_ratings_total : ℕ
deriving DecidableEq, Repr

/-- `_parse_review_date` (lines 145-150): the stored datetime normalized to
UTC; the model's datetimes are already UTC. -/
def _parse_review_date (r : Review) : Option PyDateTime := r.review_date

/-- `FIXED_DEFAULT_START = datetime(2026, 2, 21, tzinfo=timezone.utc)` (line 60). -/
def FIXED_DEFAULT_START : PyDateTime := ⟨2026, 2, 21, 0, 0, 0⟩

/-- `_get_date_window` (lines 163-168) with the `REVIEWS_DATE_FROM`/`TO`
environment variables unset (external configuration); `datetime.now` is the
explicit `now` parameter. -/
def _get_date_window (now : PyDateTime) : PyDateTime × PyDateTime :=
  let start_date := FIXED_DEFAULT_START
  let end_date := now
  if PyDateTime.lt end_date start_date then (end_date, start_date) else (start_date, end_date)

/-- Python `s or default` for an optional string (`None` and `""` are falsy). -/
def strOr (s : Option String) (d : String) : String :=
  match s with
  | none => d
  | some t => if t = "" then d else t

def joinSep (sep : String) : List String → String
  | [] => ""
  | [s] => s
  | s :: rest => s ++ sep ++ joinSep sep rest

/-- `_format_suggested_reply` (lines 170-177). -/
def _format_suggested_reply (sentiment : String) (reviewer_name : String)
    (keywords : List String) : String :=
  let name := if reviewer_name = "" then "there" else reviewer_name
  let topic := if keywords = [] then "your experience"
    else joinSep ", " (List.insertionSort (fun a b => a ≤ b) (keywords.take 3).dedup)
  if sentiment = "Positive" then
    "Hi " ++ name ++ ", thanks for the great rating! We\u0027re glad you enjoyed " ++ topic ++
      ". See you again!"
  else if sentiment = "Neutral" then
    "Hi " ++ name ++ ", thanks for your feedback. We’ll use your input about " ++ topic ++
      " to improve."
  else
    "Hi " ++ name ++ ", we\u0027re sorry about the issues with " ++ topic ++
      ". Please DM us so we can make this right and prevent it in the future."

/-- `_priority_from_counts` (lines 194-199). -/
def _priority_from_counts (mentions : ℕ) (neg_share : ℚ) : String :=
  if 5 ≤ mentions ∨ 35/100 ≤ neg_share then "High"
  else if 3 ≤ mentions ∨ 25/100 ≤ neg_share then "Medium"
  else "Low"

/-- `_risk_level` (lines 201-206). -/
def _risk_level (score : ℚ) : String :=
  if 40 ≤ score then "High"
  else if 20 ≤ score then "Medium"
  else "Low"

/-- A Python `Counter` as its insertion-ordered association list. -/
def bumpCounter : List (String × ℕ) → String → List (String × ℕ)
  | [], t => [(t, 1)]
  | (k, n) :: rest, t => if k = t then (k, n + 1) :: rest else (k, n) :: bumpCounter rest t

def counterOf (tokens : List String) : List (String × ℕ) :=
  tokens.foldl bumpCounter []

/-- `Counter.most_common(n)`: stable sort by count descending (ties keep
insertion order), then take `n`. -/
def most_common (c : List (String × ℕ)) (n : ℕ) : List (String × ℕ) :=
  (List.insertionSort (fun a b => b.2 ≤ a.2) c).take n

/-- The `sentiments` tally dictionary `{"Positive": _, "Neutral": _, "Negative": _}`. -/
structure SentimentCounts where
  positive : ℕ
  neutral : ℕ
  negative : ℕ
deriving DecidableEq, Repr

def SentimentCounts.total (s : SentimentCounts) : ℕ := s.positive + s.neutral + s.negative

/-- One `aspect_counter` entry value `{"pos": _, "neg": _, "neu": _}`. -/
structure AspectCounts where
  pos : ℕ
  neg : ℕ
  neu : ℕ
deriving DecidableEq, Repr

def bumpAspectOnce (c : AspectCounts) (sentiment : String) : AspectCounts :=
  if sentiment = "Positive" then { c with pos := c.pos + 1 }
  else if sentiment = "Negative" then { c with neg := c.neg + 1 }
  else { c with neu := c.neu + 1 }

def bumpAspect : List (String × AspectCounts) → String → String → List (String × AspectCounts)
  | [], a, s => [(a, bumpAspectOnce ⟨0, 0, 0⟩ s)]
  | (k, c) :: rest, a, s =>
    if k = a then (k, bumpAspectOnce c s) :: rest else (k, c) :: bumpAspect rest a s

/-- Python `repr` of a float that is an exact multiple of 1/100 (every float
printed by the engine is a `round(·, 2)` or `round(·, 1)` result): minimal
decimal digits, at least one. -/
def decRepr (q : ℚ) : String :=
  let sign := if q < 0 then "-" else ""
  let n := (⌊|q| * 100⌋).toNat
  let ip := n / 100
  let fr := n % 100
  if fr % 10 = 0 then sign ++ toString ip ++ "." ++ toString (fr / 10)
  else if fr < 10 then sign ++ toString ip ++ ".0" ++ toString fr
  else sign ++ toString ip ++ "." ++ toString fr

/-- Python `f"{q:.2f}"` for a float that is an exact multiple of 1/100. -/
def fixed2Repr (q : ℚ) : String :=
  let sign := if q < 0 then "-" else ""
  let n := (⌊|q| * 100⌋).toNat
  sign ++ toString (n / 100) ++ "." ++ padNum 2 (n % 100)

/-- One entry of the `ai_recommendations` list (dict keys of lines 225-278). -/
structure Recommendation where
  weak_area : String
  issue_mentions : Option ℕ
  priority : String
  recommended_action : String
  rationale : String
  owner : String
  timeframe : String
  kpi : String
  expected_outcome : String
deriving DecidableEq, Repr

/-- `_generate_ai_recommendations` (lines 208-280).  Python's stable
`sorted(..., reverse=True)` by the neg−pos gap is `List.insertionSort` with the
reversed comparison; the `continue` filter keeps the sorted order. -/
def _generate_ai_recommendations (sentiments : SentimentCounts)
    (neg_kw_counter : List (String × ℕ)) (trend_signal : TrendSignal)
    (aspect_breakdown : List (String × AspectCounts)) : List Recommendation :=
  let total := if sentiments.total = 0 then 1 else sentiments.total
  let neg_share : ℚ := (sentiments.negative : ℚ) / total
  let aspectRecs :=
    ((List.insertionSort
        (fun a b => (b.2.neg : ℤ) - b.2.pos ≤ (a.2.neg : ℤ) - a.2.pos)
        aspect_breakdown).filter fun ac => ac.2.pos < ac.2.neg).map fun ac =>
      { weak_area := ac.1
        issue_mentions := some ac.2.neg
        priority := _priority_from_counts ac.2.neg neg_share
        recommended_action := _action_for_keyword (pyLower ac.1)
        rationale := "Aspect \u0027" ++ ac.1 ++ "\u0027 shows " ++ toString ac.2.neg ++
          " negative vs " ++ toString ac.2.pos ++ " positive mentions."
        owner := "Ops Lead"
        timeframe := "2-4 weeks"
        kpi := "Reduce negative mentions on \u0027" ++ ac.1 ++
          "\u0027 by 40% and lift avg rating by +0.2 in 60 days"
        expected_outcome := "Improved customer satisfaction and reduced churn." }
  let kwRecs := (most_common neg_kw_counter 8).map fun km =>
      { weak_area := km.1
        issue_mentions := some km.2
        priority := _priority_from_counts km.2 neg_share
        recommended_action := _action_for_keyword km.1
        rationale := "Keyword \u0027" ++ km.1 ++ "\u0027 appears " ++ toString km.2 ++
          "× in negative reviews; overall negative share = " ++
          decRepr (round1 (neg_share * 100)) ++ "%."
        owner := "Ops Lead"
        timeframe := "2-4 weeks"
        kpi := "Reduce mentions of \u0027" ++ km.1 ++
          "\u0027 by 50% and lift avg rating by +0.2 in 60 days"
        expected_outcome := "Improved customer satisfaction and reduced churn." }
  let recs := aspectRecs ++ kwRecs
  let declineRec : Recommendation :=
    { weak_area := "trend_decline", issue_mentions := none, priority := "High",
      recommended_action :=
        "Launch a rapid response: daily QA huddles, incident review, on-shift coaching.",
      rationale := "Ratings are declining (" ++ decRepr trend_signal.delta ++
        "). Mitigate quickly to prevent compounding impact.",
      owner := "GM + QA", timeframe := "Immediate (1-2 weeks)",
      kpi := "Stabilize trend within 14 days; +0.3 rating delta in next 30 days",
      expected_outcome := "Arrest decline and restore confidence." }
  let improveRec : Recommendation :=
    { weak_area := "trend_improvement", issue_mentions := none, priority := "Low",
      recommended_action :=
        "Double down on what works: recognize top performers and codify best practices.",
      rationale := "Ratings are improving (" ++ decRepr trend_signal.delta ++
        "). Preserve momentum.",
      owner := "GM", timeframe := "30-45 days",
      kpi := "Sustain +0.3 delta for the next quarter",
      expected_outcome := "Compounded gains in satisfaction and loyalty." }
  if trend_signal.signal = "declining" then declineRec :: recs
  else if trend_signal.signal = "improving" then recs ++ [improveRec]
  else recs

/-- `_build_executive_summary` (lines 282-303). -/
def _build_executive_summary (company_name : String) (total : ℕ) (avg : ℚ)
    (sentiments : SentimentCounts) (top_neg_aspects top_pos_aspects : List (String × ℕ))
    (trend_signal : TrendSignal) : String :=
  let neg_joined := joinSep ", "
    ((top_neg_aspects.take 3).map fun an => an.1 ++ " (" ++ toString an.2 ++ ")")
  let pos_joined := joinSep ", "
    ((top_pos_aspects.take 3).map fun an => an.1 ++ " (" ++ toString an.2 ++ ")")
  let neg_txt := if neg_joined = "" then "—" else neg_joined
  let pos_txt := if pos_joined = "" then "—" else pos_joined
  company_name ++ ": " ++ toString total ++ " reviews analyzed at avg " ++ fixed2Repr avg ++
    "★; sentiment mix P/N/Ne = " ++ toString sentiments.positive ++ "/" ++
    toString sentiments.negative ++ "/" ++ toString sentiments.neutral ++ ". Trend is " ++
    trend_signal.signal ++ " (Δ " ++ decRepr trend_signal.delta ++ "). Most-critical areas: " ++
    neg_txt ++ ". Key strengths: " ++ pos_txt ++ ". See plan below for prioritized actions and KPIs."

structure KeywordMention where
  keyword : String
  mentions : ℕ
deriving DecidableEq, Repr

structure PhraseMention where
  phrase : String
  mentions : ℕ
deriving DecidableEq, Repr

/-- One entry of the summary `reviews` list (dict of lines 561-569). -/
structure ReviewOut where
  id : ℕ
  review_text : String
  rating : Option ℚ
  reviewer_name : String
  review_date : Option String
  sentiment : String
  suggested_reply : String
deriving DecidableEq, Repr

/-- `windowed` (line 496): reviews with a parseable date inside the window. -/
def windowedReviews (reviews : List Review) (start_date end_date : PyDateTime) : List Review :=
  reviews.filter fun r =>
    match _parse_review_date r with
    | none => false
    | some d => decide (PyDateTime.le start_date d ∧ PyDateTime.le d end_date)

/-- `r.rating or 0` (line 559): a missing (or zero) rating contributes 0. -/
def ratingOrZero (r : Review) : ℚ := r.rating.getD 0

/-- `trend_data[month].append(value)` on the insertion-ordered dict model. -/
def addTrend (d : List (String × List ℚ)) (k : String) (v : ℚ) : List (String × List ℚ) :=
  match d with
  | [] => [(k, [v])]
  | (k0, vs) :: rest => if k0 = k then (k0, vs ++ [v]) :: rest else (k0, vs) :: addTrend rest k v

/-- The `trend_data` defaultdict after the review loop (lines 533, 558-559). -/
def trendDict (ws : List Review) : List (String × List ℚ) :=
  ws.foldl (fun d r =>
    match _parse_review_date r with
    | none => d
    | some dt => addTrend d dt.toYM (ratingOrZero r)) []

/-- `trend_data_list` (lines 571-574): items sorted by month key, keeping
nonempty value lists, each mapped to its rounded average and count. -/
def trend_data_list (ws : List Review) : List TrendPoint :=
  ((List.insertionSort (fun a b => a.1 ≤ b.1) (trendDict ws)).filter fun kv => kv.2 ≠ []).map
    fun kv => ⟨kv.1, round2 (kv.2.sum / kv.2.length), kv.2.length⟩

/-- The `sentiments` tally of the review loop (lines 529, 539-540). -/
def tallySentiments (ws : List Review) : SentimentCounts :=
  ws.foldl (fun acc r =>
    let s := classify_sentiment r.rating
    if s = "Positive" then { acc with positive := acc.positive + 1 }
    else if s = "Neutral" then { acc with neutral := acc.neutral + 1 }
    else { acc with negative := acc.negative + 1 }) ⟨0, 0, 0⟩

/-- The `aspect_counter` defaultdict of the review loop (lines 534, 543-550). -/
def aspectBreakdown (ws : List Review) : List (String × AspectCounts) :=
  ws.foldl (fun d r =>
    let sentiment := classify_sentiment r.rating
    (map_tokens_to_aspects (extract_keywords r.text)).foldl
      (fun d2 asp => bumpAspect d2 asp sentiment) d) []

/-- `pos_tokens` accumulated over the review loop (lines 530, 552-553). -/
def posTokens (ws : List Review) : List String :=
  ws.foldl (fun acc r =>
    if classify_sentiment r.rating = "Positive" then acc ++ extract_keywords r.text else acc) []

/-- `neg_tokens` accumulated over the review loop (lines 531, 554-555). -/
def negTokens (ws : List Review) : List String :=
  ws.foldl (fun acc r =>
    if classify_sentiment r.rating = "Negative" then acc ++ extract_keywords r.text else acc) []

/-- `neg_bigrams` accumulated over the review loop (lines 532, 556). -/
def negBigrams (ws : List Review) : List String :=
  ws.foldl (fun acc r =>
    if classify_sentiment r.rating = "Negative" then
      acc ++ extract_bigrams (extract_keywords r.text)
    else acc) []

/-- One `reviews_list` entry (lines 561-569). -/
def reviewOut (r : Review) : ReviewOut :=
  let r_dt := _parse_review_date r
  let sentiment := classify_sentiment r.rating
  let tokens := extract_keywords r.text
  { id := r.id
    review_text := r.text.getD ""
    rating := r.rating
    reviewer_name := strOr r.reviewer_name "Anonymous"
    review_date := r_dt.map PyDateTime.iso
    sentiment := sentiment
    suggested_reply := _format_suggested_reply sentiment (strOr r.reviewer_name "there") tokens }

/-- `ratings` and `avg_rating` (lines 526-527). -/
def avgRatingOf (ws : List Review) : ℚ :=
  let ratings := ws.filterMap Review.rating
  if ratings = [] then 0 else round2 (ratings.sum / ratings.length)

/-- The full summary payload dictionary (lines 499-523 and 597-622).  The
`ai_observations` sub-dictionary is flattened into `ai_trend` / `window_from` /
`window_to`; `payload_version` is `none` in the empty-window branch, which
builds its dictionary without that key. -/
structure Summary where
  company_name : String
  google_rating : ℚ
  google_total_ratings : ℕ
  total_reviews : ℕ
  avg_rating : ℚ
  sentiments : SentimentCounts
  positive_keywords : List String
  negative_keywords : List KeywordMention
  top_phrases_negative : List PhraseMention
  trend_data : List TrendPoint
  weak_areas : List KeywordMention
  strength_areas : List KeywordMention
  aspect_breakdown : List (String × AspectCounts)
  ai_recommendations : List Recommendation
  risk_score : ℚ
  risk_level : String
  data_completion_percent : ℤ
  ai_trend : TrendSignal
  window_from : String
  window_to : String
  executive_summary : String
  reviews : List ReviewOut
  payload_version : Option String
deriving DecidableEq, Repr

/-- The analysis window of `get_review_summary_data` (lines 487-494): the
default window, overridden by explicit bounds, swapped when out of order. -/
def resolvedWindow (start_override end_override : Option PyDateTime)
    (now : PyDateTime) : PyDateTime × PyDateTime :=
  let w0 := _get_date_window now
  let s1 := start_override.getD w0.1
  let e1 := end_override.getD w0.2
  if PyDateTime.lt e1 s1 then (e1, s1) else (s1, e1)

/-- `risk_score = round((sentiments["Negative"]/total_reviews)*100, 2)` (line 587). -/
def riskScoreOf (negative total : ℕ) : ℚ :=
  round2 (((negative : ℚ) / total) * 100)

/-- `get_review_summary_data` (lines 481-622).  The source's single loop over
`windowed` updates several independent accumulators; the model computes each
accumulator by its own pass (extensionally equal).  `now` stands for
`datetime.now(timezone.utc)` read inside `_get_date_window`. -/
def get_review_summary_data (reviews : List Review) (company : Company)
    (start_override end_override : Option PyDateTime) (now : PyDateTime) : Summary :=
  let w := resolvedWindow start_override end_override now
  let start_date := w.1
  let end_date := w.2
  let windowed := windowedReviews reviews start_date end_date
  if windowed = [] then
    { company_name := company.name
      google_rating := company.google_rating
      google_total_ratings := company.user_ratings_total
      total_reviews := 0
      avg_rating := 0
      sentiments := ⟨0, 0, 0⟩
      positive_keywords := []
      negative_keywords := []
      top_phrases_negative := []
      trend_data := []
      weak_areas := []
      strength_areas := []
      aspect_breakdown := []
      ai_recommendations := []
      risk_score := 0
      risk_level := "Low"
      data_completion_percent := 0
      ai_trend := ⟨"insufficient_data", 0, none⟩
      window_from := start_date.iso
      window_to := end_date.iso
      executive_summary := ""
      reviews := []
      payload_version := none }
  else
    let total_reviews := windowed.length
    let avg_rating := avgRatingOf windowed
    let sentiments := tallySentiments windowed
    let aspect_counter := aspectBreakdown windowed
    let pos_counter := counterOf (posTokens windowed)
    let neg_counter := counterOf (negTokens windowed)
    let neg_bigram_counter := counterOf (negBigrams windowed)
    let top_positive := (most_common pos_counter 8).map fun kv => KeywordMention.mk kv.1 kv.2
    let top_negative := (most_common neg_counter 12).map fun kv => KeywordMention.mk kv.1 kv.2
    let top_phrases := (most_common neg_bigram_counter 10).map fun kv => PhraseMention.mk kv.1 kv.2
    let tdl := trend_data_list windowed
    let trend_signal := _detect_trend tdl
    let ai_recs := _generate_ai_recommendations sentiments neg_counter trend_signal aspect_counter
    let risk_score := riskScoreOf sentiments.negative total_reviews
    let total_google := company.user_ratings_total
    let completion : ℤ :=
      if 0 < total_google then
        min 100 (roundHalfEven (((total_reviews : ℚ) / total_google) * 100))
      else 0
    let neg_aspect_sorted := List.insertionSort (fun a b => b.2 ≤ a.2)
      ((aspect_counter.filter fun ac => 0 < ac.2.neg).map fun ac => (ac.1, ac.2.neg))
    let pos_aspect_sorted := List.insertionSort (fun a b => b.2 ≤ a.2)
      ((aspect_counter.filter fun ac => 0 < ac.2.pos).map fun ac => (ac.1, ac.2.pos))
    let exec_summary := _build_executive_summary company.name total_reviews avg_rating
      sentiments neg_aspect_sorted pos_aspect_sorted trend_signal
    let reviews_list := windowed.map reviewOut
    { company_name := company.name
      google_rating := company.google_rating
      google_total_ratings := total_google
      total_reviews := total_reviews
      avg_rating := avg_rating
      sentiments := sentiments
      positive_keywords := (most_common pos_counter 12).map (·.1)
      negative_keywords := top_negative
      top_phrases_negative := top_phrases
      trend_data := tdl
      weak_areas := top_negative
      strength_areas := top_positive
      aspect_breakdown := aspect_counter
      ai_recommendations := ai_recs
      risk_score := risk_score
      risk_level := _risk_level risk_score
      data_completion_percent := completion
      ai_trend := trend_signal
      window_from := start_date.iso
      window_to := end_date.iso
      executive_summary := exec_summary
      reviews := (List.insertionSort
        (fun a b => (b.review_date.getD "") ≤ (a.review_date.getD "")) reviews_list).take 15
      payload_version := some "2.1" }

/-- A raw Places review after field extraction (lines 319-320, 322-333 of
reviews.py): `rev.get("text", "")` defaults to `""`, the rating may be absent,
`rev.get("author_name", "Anonymous")` defaults, and `time` is parsed to a
datetime when present. -/
structure RawPlacesReview where
  text : String
  rating : Option ℚ
  author_name : String
  review_date : Option PyDateTime
deriving DecidableEq, Repr

/-- The company-scoped duplicate-detection key of the `exists` query
(lines 321-326 and 444-449): (text, rating, review_date). -/
structure DedupKey where
  text : String
  rating : Option ℚ
  review_date : Option PyDateTime
deriving DecidableEq, Repr

def RawPlacesReview.key (r : RawPlacesReview) : DedupKey :=
  ⟨r.text, r.rating, r.review_date⟩

/-- The columns of a stored `Review` row that the ingestion paths write and the
dedup key reads. -/
structure StoredReview where
  text : String
  rating : Option ℚ
  reviewer_name : String
  review_date : Option PyDateTime
deriving DecidableEq, Repr

def StoredReview.key (s : StoredReview) : DedupKey := ⟨s.text, s.rating, s.review_date⟩

/-- The per-review loop of `fetch_and_save_reviews_places` (lines 318-337):
skip a fetched review whose (text, rating, review_date) key matches an existing
row, otherwise add it and count it (the session makes pending adds visible to
the next duplicate query, so the key set grows within the batch).  Returns the
added rows and the `added` counter. -/
def placesIngest (existing : List DedupKey) : List RawPlacesReview → List StoredReview × ℕ
  | [] => ([], 0)
  | rev :: rest =>
    if rev.key ∈ existing then placesIngest existing rest
    else
      let out := placesIngest (rev.key :: existing) rest
      (⟨rev.text, rev.rating, rev.author_name, rev.review_date⟩ :: out.1, out.2 + 1)

/-- A raw review handled by the scheduler ingestion loop
(`review_saas/review_saas/app/scheduler.py` lines 36-50). -/
structure RawSchedReview where
  text : Option String
  rating : Option ℚ
  review_datetime : Option PyDateTime
  reviewer_name : Option String
deriving DecidableEq, Repr

/-- `(r.get('text') or '')[:5000]` (scheduler.py line 38). -/
def truncate5000 (s : String) : String := String.mk (s.data.take 5000)

/-- Python falsy test `not r.get('rating')`: absent or zero. -/
def ratingFalsy (r : Option ℚ) : Prop := r = none ∨ r = some 0

instance (r : Option ℚ) : Decidable (ratingFalsy r) :=
  inferInstanceAs (Decidable (_ ∨ _))

/-- The rows the scheduler loop hands to the session (scheduler.py lines
36-50): a review with falsy text and falsy rating is skipped (`continue`,
line 39-40) before any insert; every other fetched review is inserted (the
per-row `IntegrityError` rollback that a database unique constraint may raise
afterwards can only drop rows and is external to this loop). -/
def schedulerInserted (raws : List RawSchedReview) : List StoredReview :=
  raws.filterMap fun r =>
    let text := truncate5000 (r.text.getD "")
    if text = "" ∧ ratingFalsy r.rating then none
    else some ⟨text, r.rating, strOr r.reviewer_name "Anonymous", r.review_datetime⟩

/-!  Theorems settling the claims. -/

/-- Claim C1: `classify_sentiment` is a pure function of the rating alone
(purity holds by construction: it is a Lean function of `r`), returning
Neutral for `None`, Positive for `r ≥ 4`, Neutral for `r = 3`, and Negative
for `r ≤ 2`. -/
theorem c1_classify_sentiment_rule (r : Option ℚ) :
    (r = none → classify_sentiment r = "Neutral")
    ∧ (∀ x : ℚ, r = some x → 4 ≤ x → classify_sentiment r = "Positive")
    ∧ (∀ x : ℚ, r = some x → x = 3 → classify_sentiment r = "Neutral")
    ∧ (∀ x : ℚ, r = some x → x ≤ 2 → classify_sentiment r = "Negative") := by
  refine ⟨?_, ?_, ?_, ?_⟩
  · rintro rfl; rfl
  · rintro x rfl h
    simp only [classify_sentiment, ge_iff_le, if_pos h]
  · rintro x rfl h
    subst h
    norm_num [classify_sentiment]
  · rintro x rfl h
    simp only [classify_sentiment]
    rw [if_neg (by intro hc; exact absurd h (by push_neg; linarith)),
      if_neg (by intro hc; subst hc; linarith)]

/-- Witness for C1 at the four representative inputs. -/
theorem c1_witness :
    classify_sentiment none = "Neutral"
    ∧ classify_sentiment (some 5) = "Positive"
    ∧ classify_sentiment (some 3) = "Neutral"
    ∧ classify_sentiment (some 1) = "Negative" :=
  ⟨(c1_classify_sentiment_rule none).1 rfl,
   (c1_classify_sentiment_rule (some 5)).2.1 5 rfl (by norm_num),
   (c1_classify_sentiment_rule (some 3)).2.2.1 3 rfl rfl,
   (c1_classify_sentiment_rule (some 1)).2.2.2 1 rfl (by norm_num)⟩

/-- Claim C10: a non-integer rating strictly between 2 and 3 or between 3
and 4 falls through to Negative, because only `r ≥ 4` and `r = 3` are tested
before the fallthrough. -/
theorem c10_midrange_rating_negative (r : ℚ)
    (h : (2 < r ∧ r < 3) ∨ (3 < r ∧ r < 4)) :
    classify_sentiment (some r) = "Negative" := by
  simp only [classify_sentiment]
  rcases h with ⟨h1, h2⟩ | ⟨h1, h2⟩
  · rw [if_neg (by push_neg; linarith), if_neg (by intro hc; subst hc; linarith)]
  · rw [if_neg (by push_neg; linarith), if_neg (by intro hc; subst hc; linarith)]

/-- Witness for C10 at r = 5/2 and r = 7/2. -/
theorem c10_witness :
    ((2 < (5/2 : ℚ) ∧ (5/2 : ℚ) < 3) ∨ (3 < (5/2 : ℚ) ∧ (5/2 : ℚ) < 4))
    ∧ classify_sentiment (some (5/2)) = "Negative"
    ∧ ((2 < (7/2 : ℚ) ∧ (7/2 : ℚ) < 3) ∨ (3 < (7/2 : ℚ) ∧ (7/2 : ℚ) < 4))
    ∧ classify_sentiment (some (7/2)) = "Negative" :=
  ⟨Or.inl ⟨by norm_num, by norm_num⟩,
   c10_midrange_rating_negative (5/2) (Or.inl ⟨by norm_num, by norm_num⟩),
   Or.inr ⟨by norm_num, by norm_num⟩,
   c10_midrange_rating_negative (7/2) (Or.inr ⟨by norm_num, by norm_num⟩)⟩

/-- Claim C6: a monthly series with fewer than 3 points yields the
insufficient-data signal with delta 0.0. -/
theorem c6_trend_insufficient (l : List TrendPoint) (h : l.length < 3) :
    (_detect_trend l).signal = "insufficient_data" ∧ (_detect_trend l).delta = 0 := by
  unfold _detect_trend
  rw [if_pos h]
  exact ⟨rfl, rfl⟩

/-- Witness for C6 on a one-point series. -/
theorem c6_witness :
    ([⟨"2026-01", 5, 2⟩] : List TrendPoint).length < 3
    ∧ (_detect_trend [⟨"2026-01", 5, 2⟩]).signal = "insufficient_data"
    ∧ (_detect_trend [⟨"2026-01", 5, 2⟩]).delta = 0 :=
  ⟨by decide, (c6_trend_insufficient _ (by decide)).1, (c6_trend_insufficient _ (by decide)).2⟩

/-- Claim C8: whenever the trend signal is declining, the recommendation list
starts with the rapid-response meta-recommendation at priority High, whatever
the keyword and aspect counts are. -/
theorem c8_declining_first_recommendation (sentiments : SentimentCounts)
    (neg_kw_counter : List (String × ℕ)) (trend_signal : TrendSignal)
    (aspect_breakdown : List (String × AspectCounts))
    (h : trend_signal.signal = "declining") :
    ∃ rest,
      _generate_ai_recommendations sentiments neg_kw_counter trend_signal aspect_breakdown =
        { weak_area := "trend_decline", issue_mentions := none, priority := "High",
          recommended_action :=
            "Launch a rapid response: daily QA huddles, incident review, on-shift coaching.",
          rationale := "Ratings are declining (" ++ decRepr trend_signal.delta ++
            "). Mitigate quickly to prevent compounding impact.",
          owner := "GM + QA", timeframe := "Immediate (1-2 weeks)",
          kpi := "Stabilize trend within 14 days; +0.3 rating delta in next 30 days",
          expected_outcome := "Arrest decline and restore confidence." } :: rest := by
  simp only [_generate_ai_recommendations, if_pos h]
  exact ⟨_, rfl⟩

/-- Witness for C8 on empty counts and a concrete declining signal. -/
theorem c8_witness :
    ∃ rest,
      _generate_ai_recommendations ⟨0, 0, 0⟩ [] ⟨"declining", -1, none⟩ [] =
        { weak_area := "trend_decline", issue_mentions := none, priority := "High",
          recommended_action :=
            "Launch a rapid response: daily QA huddles, incident review, on-shift coaching.",
          rationale := "Ratings are declining (" ++ decRepr (-1) ++
            "). Mitigate quickly to prevent compounding impact.",
          owner := "GM + QA", timeframe := "Immediate (1-2 weeks)",
          kpi := "Stabilize trend within 14 days; +0.3 rating delta in next 30 days",
          expected_outcome := "Arrest decline and restore confidence." } :: rest :=
  c8_declining_first_recommendation ⟨0, 0, 0⟩ [] ⟨"declining", -1, none⟩ [] rfl

/-- Claim C7 counterexample: the Places fetch path stores a non-duplicate
fetched review with empty text and absent rating (it is added and counted)
instead of skipping it. -/
theorem c7_counterexample :
    (placesIngest [] [⟨"", none, "Alice", some ⟨2026, 3, 1, 12, 0, 0⟩⟩]).2 = 1
    ∧ (placesIngest [] [⟨"", none, "Alice", some ⟨2026, 3, 1, 12, 0, 0⟩⟩]).1 =
        [⟨"", none, "Alice", some ⟨2026, 3, 1, 12, 0, 0⟩⟩] := by
  constructor <;> rfl

/-- Claim C7 (amended): only the scheduler ingestion path skips a fetched
review with empty text and falsy rating; the Places fetch path stores such a
review whenever its (text, rating, review_date) key is not already present. -/
theorem c7_amended (existing : List DedupKey) (a : String) (d : Option PyDateTime)
    (h : (⟨"", none, d⟩ : DedupKey) ∉ existing) :
    (placesIngest existing [⟨"", none, a, d⟩]).2 = 1
    ∧ (∀ raws : List RawSchedReview, ∀ out ∈ schedulerInserted raws,
        ¬ (out.text = "" ∧ ratingFalsy out.rating)) := by
  constructor
  · unfold placesIngest
    rw [if_neg (show ¬ (⟨"", none, a, d⟩ : RawPlacesReview).key ∈ existing from h)]
    rfl
  · intro raws out hout hcon
    simp only [schedulerInserted, List.mem_filterMap] at hout
    obtain ⟨r, _, hf⟩ := hout
    by_cases hg : truncate5000 (r.text.getD "") = "" ∧ ratingFalsy r.rating
    · rw [if_pos hg] at hf
      exact Option.noConfusion hf
    · rw [if_neg hg] at hf
      injection hf with hf
      subst hf
      exact hg ⟨hcon.1, hcon.2⟩

/-- Witness for C7 (amended) with an empty existing-key set. -/
theorem c7_witness :
    ((⟨"", none, none⟩ : DedupKey) ∉ ([] : List DedupKey))
    ∧ (placesIngest [] [⟨"", none, "Alice", none⟩]).2 = 1 :=
  ⟨by decide, (c7_amended [] "Alice" none (by decide)).1⟩

/-- The chronologically ordered three-point series refuting the 3-to-5-point
clause of claim C2. -/
def c2Series : List TrendPoint :=
  [⟨"2026-01", 1, 1⟩, ⟨"2026-02", 1, 1⟩, ⟨"2026-03", 5, 1⟩]

/-- Claim C2 counterexample: on a chronologically ordered 3-point series the
code returns delta 0.0 (with fewer than 6 points the prior window defaults to
the last-3 mean), not the last-point-minus-first-point difference 4.0 that
the claim requires. -/
theorem c2_counterexample :
    List.Sorted (fun a b : TrendPoint => a.month ≤ b.month) c2Series
    ∧ (_detect_trend c2Series).delta ≠
        round2 ((c2Series.getLast (by decide)).avg_rating -
          (c2Series.head (by decide)).avg_rating) := by
  constructor
  · with_unfolding_all decide
  · with_unfolding_all decide

theorem round2_zero : round2 0 = 0 := by norm_num [round2, roundHalfEven]

/-- Claim C2 (amended): for a chronologically ordered monthly series, with 6
or more points delta is the rounded difference between the mean of the last 3
points and the mean of the 3 points immediately preceding them; with 3 to 5
points the prior window defaults to the last-3 mean, so delta is 0.0 and the
signal is stable. -/
theorem c2_amended (l : List TrendPoint)
    (hsort : List.Sorted (fun a b => a.month ≤ b.month) l) :
    (6 ≤ l.length →
      (_detect_trend l).delta =
        round2 (meanAvgRating (l.drop (l.length - 3)) -
          meanAvgRating ((l.drop (l.length - 6)).take 3)))
    ∧ (3 ≤ l.length → l.length ≤ 5 →
      (_detect_trend l).delta = 0 ∧ (_detect_trend l).signal = "stable") := by
  have hs : List.insertionSort (fun a b => a.month ≤ b.month) l = l :=
    List.Sorted.insertionSort_eq hsort
  constructor
  · intro h6
    have hlt : ¬ l.length < 3 := by omega
    have h3 : ((l.drop (l.length - 6)).take 3).length = 3 := by
      rw [List.length_take, List.length_drop]
      omega
    have hne : ¬ ((l.drop (l.length - 6)).take 3 = []) := by
      intro hcon
      rw [hcon] at h3
      simp at h3
    simp only [_detect_trend, hs]
    rw [if_neg hlt, if_pos h6, if_neg hne]
    simp only [apply_ite TrendSignal.delta, ite_self]
  · intro h3 h5
    have hlt : ¬ l.length < 3 := by omega
    have h6' : ¬ 6 ≤ l.length := by omega
    have hc1 : ¬ ((0:ℚ) ≤ -3/10) := by norm_num
    have hc2 : ¬ ((0:ℚ) ≥ 3/10) := by norm_num
    simp only [_detect_trend, hs]
    rw [if_neg hlt, if_neg h6', if_pos (rfl : ([] : List TrendPoint) = []),
      sub_self, round2_zero, if_neg hc1, if_neg hc2]
    exact ⟨rfl, rfl⟩

/-- The chronologically ordered six-point series exercising the first clause
of the amended claim C2. -/
def c2WitnessSeries : List TrendPoint :=
  [⟨"2026-01", 3, 1⟩, ⟨"2026-02", 3, 1⟩, ⟨"2026-03", 3, 1⟩,
   ⟨"2026-04", 2, 1⟩, ⟨"2026-05", 2, 1⟩, ⟨"2026-06", 2, 1⟩]

/-- Witness for C2 (amended) on concrete 6-point and 3-point series. -/
theorem c2_witness :
    (List.Sorted (fun a b : TrendPoint => a.month ≤ b.month) c2WitnessSeries
      ∧ 6 ≤ c2WitnessSeries.length
      ∧ (_detect_trend c2WitnessSeries).delta =
          round2 (meanAvgRating (c2WitnessSeries.drop (c2WitnessSeries.length - 3)) -
            meanAvgRating ((c2WitnessSeries.drop (c2WitnessSeries.length - 6)).take 3)))
    ∧ (List.Sorted (fun a b : TrendPoint => a.month ≤ b.month) c2Series
      ∧ 3 ≤ c2Series.length ∧ c2Series.length ≤ 5
      ∧ (_detect_trend c2Series).delta = 0 ∧ (_detect_trend c2Series).signal = "stable") := by
  have hs1 : List.Sorted (fun a b : TrendPoint => a.month ≤ b.month) c2WitnessSeries := by
    with_unfolding_all decide
  have hs2 : List.Sorted (fun a b : TrendPoint => a.month ≤ b.month) c2Series := by
    with_unfolding_all decide
  refine ⟨⟨hs1, by decide, (c2_amended c2WitnessSeries hs1).1 (by decide)⟩,
    ⟨hs2, by decide, by decide, ?_, ?_⟩⟩
  · exact ((c2_amended c2Series hs2).2 (by decide) (by decide)).1
  · exact ((c2_amended c2Series hs2).2 (by decide) (by decide)).2

theorem roundHalfEven_bounds (q : ℚ) :
    ⌊q⌋ ≤ roundHalfEven q ∧ roundHalfEven q ≤ ⌊q⌋ + 1 := by
  simp only [roundHalfEven]
  split_ifs <;> omega

theorem roundHalfEven_mono {a b : ℚ} (h : a ≤ b) :
    roundHalfEven a ≤ roundHalfEven b := by
  rcases lt_or_eq_of_le (Int.floor_le_floor h) with hlt | heq
  · calc roundHalfEven a ≤ ⌊a⌋ + 1 := (roundHalfEven_bounds a).2
      _ ≤ ⌊b⌋ := by omega
      _ ≤ roundHalfEven b := (roundHalfEven_bounds b).1
  · have hfr : a - (⌊a⌋ : ℚ) ≤ b - (⌊b⌋ : ℚ) := by
      rw [heq]
      linarith
    simp only [roundHalfEven]
    split_ifs <;> first | omega | (exfalso; linarith)

theorem round2_mono {a b : ℚ} (h : a ≤ b) : round2 a ≤ round2 b := by
  unfold round2
  have hm := roundHalfEven_mono (mul_le_mul_of_nonneg_right h (by norm_num : (0:ℚ) ≤ 100))
  have hc : ((roundHalfEven (a * 100) : ℤ) : ℚ) ≤ ((roundHalfEven (b * 100) : ℤ) : ℚ) := by
    exact_mod_cast hm
  linarith

/-- Claim C5 counterexample: two strictly different negative shares produce
the same risk score after the 2-decimal rounding, so strictness fails. -/
theorem c5_counterexample :
    ((33333 : ℚ) / 100000) < ((33334 : ℚ) / 100000)
    ∧ riskScoreOf 33333 100000 = riskScoreOf 33334 100000 := by
  constructor
  · norm_num
  · norm_num [riskScoreOf, round2, roundHalfEven]

/-- Claim C5 (amended): holding the trend signal fixed (the code's risk score
never consults the trend), a greater-or-equal negative share yields a
greater-or-equal risk score; strict monotonicity can fail at the 2-decimal
rounding. -/
theorem c5_amended (n1 t1 n2 t2 : ℕ) (_h1 : 1 ≤ t1) (_h2 : 1 ≤ t2)
    (h : (n1 : ℚ) / t1 ≤ (n2 : ℚ) / t2) :
    riskScoreOf n1 t1 ≤ riskScoreOf n2 t2 := by
  unfold riskScoreOf
  exact round2_mono (mul_le_mul_of_nonneg_right h (by norm_num : (0:ℚ) ≤ 100))

/-- Witness for C5 (amended) at shares 1/4 and 2/4. -/
theorem c5_witness :
    (1 ≤ 4 ∧ 1 ≤ 4 ∧ ((1 : ℚ) / 4 ≤ (2 : ℚ) / 4))
    ∧ riskScoreOf 1 4 ≤ riskScoreOf 2 4 :=
  ⟨⟨by norm_num, by norm_num, by norm_num⟩,
   c5_amended 1 4 2 4 (by norm_num) (by norm_num) (by norm_num)⟩

/-- Claim C9: a window containing zero dated reviews yields the explicit empty
summary — zero counts, 0.0 averages and risk, Low level, empty lists — and the
embedded function is total, so no error is raised. -/
theorem c9_empty_window (reviews : List Review) (company : Company)
    (so eo : Option PyDateTime) (now : PyDateTime)
    (h : windowedReviews reviews (resolvedWindow so eo now).1
      (resolvedWindow so eo now).2 = []) :
    get_review_summary_data reviews company so eo now =
      { company_name := company.name
        google_rating := company.google_rating
        google_total_ratings := company.user_ratings_total
        total_reviews := 0
        avg_rating := 0
        sentiments := ⟨0, 0, 0⟩
        positive_keywords := []
        negative_keywords := []
        top_phrases_negative := []
        trend_data := []
        weak_areas := []
        strength_areas := []
        aspect_breakdown := []
        ai_recommendations := []
        risk_score := 0
        risk_level := "Low"
        data_completion_percent := 0
        ai_trend := ⟨"insufficient_data", 0, none⟩
        window_from := (resolvedWindow so eo now).1.iso
        window_to := (resolvedWindow so eo now).2.iso
        executive_summary := ""
        reviews := []
        payload_version := none } := by
  simp only [get_review_summary_data]
  rw [if_pos h]

/-- Witness for C9: an empty review list with the default window. -/
theorem c9_witness :
    (windowedReviews [] (resolvedWindow none none ⟨2026, 3, 1, 0, 0, 0⟩).1
      (resolvedWindow none none ⟨2026, 3, 1, 0, 0, 0⟩).2 = [])
    ∧ (get_review_summary_data [] ⟨"ACME", 0, 0⟩ none none
        ⟨2026, 3, 1, 0, 0, 0⟩).total_reviews = 0
    ∧ (get_review_summary_data [] ⟨"ACME", 0, 0⟩ none none
        ⟨2026, 3, 1, 0, 0, 0⟩).ai_recommendations = [] := by
  refine ⟨rfl, ?_, ?_⟩ <;>
    rw [c9_empty_window [] ⟨"ACME", 0, 0⟩ none none ⟨2026, 3, 1, 0, 0, 0⟩ rfl]

theorem _risk_level_iff (s : ℚ) :
    (_risk_level s = "High" ↔ 40 ≤ s)
    ∧ (_risk_level s = "Medium" ↔ 20 ≤ s ∧ s < 40)
    ∧ (_risk_level s = "Low" ↔ s < 20) := by
  unfold _risk_level
  split_ifs with h1 h2
  · exact ⟨⟨fun _ => h1, fun _ => rfl⟩,
      ⟨fun hc => absurd hc (by decide), fun hc => absurd hc.2 (not_lt.mpr h1)⟩,
      ⟨fun hc => absurd hc (by decide), fun hc => absurd hc (not_lt.mpr (by linarith))⟩⟩
  · exact ⟨⟨fun hc => absurd hc (by decide), fun hc => absurd hc h1⟩,
      ⟨fun _ => ⟨h2, not_le.mp h1⟩, fun _ => rfl⟩,
      ⟨fun hc => absurd hc (by decide), fun hc => absurd hc (not_lt.mpr h2)⟩⟩
  · exact ⟨⟨fun hc => absurd hc (by decide), fun hc => absurd hc h1⟩,
      ⟨fun hc => absurd hc (by decide), fun hc => absurd hc.1 h2⟩,
      ⟨fun _ => not_le.mp h2, fun _ => rfl⟩⟩

/-- Claim C3 (amended): the summary's risk_score is
round(negative_share·100, 2) with no declining-trend bonus (the code never
consults the trend signal when scoring), and risk_level is High iff
risk_score ≥ 40, Medium iff 20 ≤ risk_score < 40, and Low otherwise. -/
theorem c3_amended (reviews : List Review) (company : Company)
    (so eo : Option PyDateTime) (now : PyDateTime) :
    (get_review_summary_data reviews company so eo now).risk_score =
      riskScoreOf (get_review_summary_data reviews company so eo now).sentiments.negative
        (get_review_summary_data reviews company so eo now).total_reviews
    ∧ ((get_review_summary_data reviews company so eo now).risk_level = "High" ↔
        40 ≤ (get_review_summary_data reviews company so eo now).risk_score)
    ∧ ((get_review_summary_data reviews company so eo now).risk_level = "Medium" ↔
        20 ≤ (get_review_summary_data reviews company so eo now).risk_score ∧
          (get_review_summary_data reviews company so eo now).risk_score < 40)
    ∧ ((get_review_summary_data reviews company so eo now).risk_level = "Low" ↔
        (get_review_summary_data reviews company so eo now).risk_score < 20) := by
  simp only [get_review_summary_data]
  by_cases h : windowedReviews reviews (resolvedWindow so eo now).1
    (resolvedWindow so eo now).2 = []
  · rw [if_pos h]
    refine ⟨?_, ?_, ?_, ?_⟩ <;> dsimp only
    · norm_num [riskScoreOf, round2, roundHalfEven]
    · exact ⟨fun hc => absurd hc (by decide), fun hc => by norm_num at hc⟩
    · exact ⟨fun hc => absurd hc (by decide), fun hc => absurd hc.1 (by norm_num)⟩
    · exact ⟨fun _ => by norm_num, fun _ => rfl⟩
  · rw [if_neg h]
    dsimp only
    exact ⟨rfl, (_risk_level_iff _).1, (_risk_level_iff _).2.1, (_risk_level_iff _).2.2⟩

/-- The risk formula asserted by claim C3 (spec §4.6): negative share scaled
to 100 plus a +10 bonus when the trend signal is declining, rounded to two
decimals.  Stated from the claim for comparison with the code. -/
def risk_score_claimed (negative total : ℕ) (declining : Bool) : ℚ :=
  round2 (((negative : ℚ) / total) * 100 + (if declining then 10 else 0))

/-- Six reviews across six months, three Positive then three Negative, giving
a declining trend and negative share 1/2. -/
def c3Reviews : List Review :=
  [⟨1, none, some 5, none, some ⟨2026, 1, 1, 12, 0, 0⟩⟩,
   ⟨2, none, some 5, none, some ⟨2026, 2, 1, 12, 0, 0⟩⟩,
   ⟨3, none, some 5, none, some ⟨2026, 3, 1, 12, 0, 0⟩⟩,
   ⟨4, none, some 1, none, some ⟨2026, 4, 1, 12, 0, 0⟩⟩,
   ⟨5, none, some 1, none, some ⟨2026, 5, 1, 12, 0, 0⟩⟩,
   ⟨6, none, some 1, none, some ⟨2026, 6, 1, 12, 0, 0⟩⟩]

/-- Claim C3 counterexample: on a declining six-month window with negative
share 3/6 the code's risk_score is 50.0, while the claimed formula with the
+10 declining bonus demands 60.0. -/
theorem c3_counterexample :
    (get_review_summary_data c3Reviews ⟨"ACME", 0, 0⟩ (some ⟨2026, 1, 1, 0, 0, 0⟩)
        (some ⟨2026, 12, 31, 0, 0, 0⟩) ⟨2026, 12, 31, 0, 0, 0⟩).ai_trend.signal = "declining"
    ∧ (get_review_summary_data c3Reviews ⟨"ACME", 0, 0⟩ (some ⟨2026, 1, 1, 0, 0, 0⟩)
        (some ⟨2026, 12, 31, 0, 0, 0⟩) ⟨2026, 12, 31, 0, 0, 0⟩).sentiments.negative = 3
    ∧ (get_review_summary_data c3Reviews ⟨"ACME", 0, 0⟩ (some ⟨2026, 1, 1, 0, 0, 0⟩)
        (some ⟨2026, 12, 31, 0, 0, 0⟩) ⟨2026, 12, 31, 0, 0, 0⟩).total_reviews = 6
    ∧ (get_review_summary_data c3Reviews ⟨"ACME", 0, 0⟩ (some ⟨2026, 1, 1, 0, 0, 0⟩)
        (some ⟨2026, 12, 31, 0, 0, 0⟩) ⟨2026, 12, 31, 0, 0, 0⟩).risk_score = 50
    ∧ risk_score_claimed 3 6 true = 60 := by
  refine ⟨?_, ?_, ?_, ?_, ?_⟩
  · with_unfolding_all decide
  · with_unfolding_all decide
  · with_unfolding_all decide
  · with_unfolding_all decide
  · norm_num [risk_score_claimed, round2, roundHalfEven]

/-- The ratings (`rating or 0`) of the windowed reviews dated in month `m`,
in review order — what the `trend_data` dict accumulates under key `m`. -/
def monthRatings (ws : List Review) (m : String) : List ℚ :=
  (ws.filter fun r =>
    match _parse_review_date r with
    | none => false
    | some dt => decide (dt.toYM = m)).map ratingOrZero

/-- Lookup in the insertion-ordered dict model. -/
def dictGet : List (String × List ℚ) → String → List ℚ
  | [], _ => []
  | (k0, vs) :: rest, k => if k0 = k then vs else dictGet rest k

theorem dictGet_addTrend (d : List (String × List ℚ)) (k : String) (v : ℚ) :
    dictGet (addTrend d k v) k = dictGet d k ++ [v] := by
  induction d with
  | nil => simp [addTrend, dictGet]
  | cons hd tl ih =>
    obtain ⟨k0, vs⟩ := hd
    by_cases hk : k0 = k
    · subst hk
      simp [addTrend, dictGet]
    · simp [addTrend, dictGet, hk, ih]

theorem dictGet_addTrend_ne (d : List (String × List ℚ)) {k k' : String} (v : ℚ)
    (h : k' ≠ k) :
    dictGet (addTrend d k v) k' = dictGet d k' := by
  induction d with
  | nil => simp [addTrend, dictGet, Ne.symm h]
  | cons hd tl ih =>
    obtain ⟨k0, vs⟩ := hd
    by_cases hk : k0 = k
    · subst hk
      simp [addTrend, dictGet, Ne.symm h]
    · simp [addTrend, dictGet, hk, ih]

theorem dictGet_trendFold (ws : List Review) (d : List (String × List ℚ)) (k : String) :
    dictGet (ws.foldl (fun d r =>
        match _parse_review_date r with
        | none => d
        | some dt => addTrend d dt.toYM (ratingOrZero r)) d) k
      = dictGet d k ++ monthRatings ws k := by
  induction ws generalizing d with
  | nil => simp [monthRatings]
  | cons r rest ih =>
    cases hr : _parse_review_date r with
    | none =>
      simp only [List.foldl_cons, hr, monthRatings, List.filter_cons]
      rw [ih]
      simp [monthRatings, hr]
    | some dt =>
      by_cases hm : dt.toYM = k
      · simp only [List.foldl_cons, hr]
        rw [ih, hm, dictGet_addTrend]
        simp [monthRatings, List.filter_cons, hr, hm, List.append_assoc]
      · simp only [List.foldl_cons, hr]
        rw [ih, dictGet_addTrend_ne _ _ (Ne.symm hm)]
        simp [monthRatings, List.filter_cons, hr, hm]

theorem dictGet_trendDict (ws : List Review) (k : String) :
    dictGet (trendDict ws) k = monthRatings ws k := by
  have h := dictGet_trendFold ws [] k
  simpa [trendDict, dictGet] using h

theorem keys_addTrend (d : List (String × List ℚ)) (k : String) (v : ℚ) :
    (addTrend d k v).map Prod.fst =
      if k ∈ d.map Prod.fst then d.map Prod.fst else d.map Prod.fst ++ [k] := by
  induction d with
  | nil => simp [addTrend]
  | cons hd tl ih =>
    obtain ⟨k0, vs⟩ := hd
    by_cases hk : k0 = k
    · subst hk
      simp [addTrend]
    · simp only [addTrend, if_neg hk, List.map_cons, ih]
      by_cases hmem : k ∈ tl.map Prod.fst
      · rw [if_pos hmem, if_pos (by simp [hmem])]
      · rw [if_neg hmem, if_neg (by simp [hmem, Ne.symm hk])]
        simp

theorem nodupKeys_addTrend {d : List (String × List ℚ)}
    (hd : (d.map Prod.fst).Nodup) (k : String) (v : ℚ) :
    ((addTrend d k v).map Prod.fst).Nodup := by
  rw [keys_addTrend]
  split_ifs with hmem
  · exact hd
  · simp [List.nodup_append, hd, hmem]

theorem nodupKeys_trendDict (ws : List Review) :
    ((trendDict ws).map Prod.fst).Nodup := by
  suffices h : ∀ d : List (String × List ℚ), (d.map Prod.fst).Nodup →
      ((ws.foldl (fun d r =>
        match _parse_review_date r with
        | none => d
        | some dt => addTrend d dt.toYM (ratingOrZero r)) d).map Prod.fst).Nodup by
    exact h [] (by simp)
  induction ws with
  | nil => intro d hd; simpa using hd
  | cons r rest ih =>
    intro d hd
    cases hr : _parse_review_date r with
    | none => simpa [hr] using ih d hd
    | some dt => simpa [hr] using ih _ (nodupKeys_addTrend hd dt.toYM (ratingOrZero r))

theorem mem_dictGet {d : List (String × List ℚ)} (hd : (d.map Prod.fst).Nodup)
    {k : String} {vs : List ℚ} (h : (k, vs) ∈ d) : dictGet d k = vs := by
  induction d with
  | nil => cases h
  | cons hd0 tl ih =>
    obtain ⟨k0, vs0⟩ := hd0
    rcases List.mem_cons.mp h with heq | htl
    · cases heq
      simp [dictGet]
    · rw [List.map_cons, List.nodup_cons] at hd
      have hk : k0 ≠ k := by
        intro hc
        subst hc
        exact hd.1 (List.mem_map.mpr ⟨(k0, vs), htl, rfl⟩)
      simp only [dictGet, if_neg hk]
      exact ih hd.2 htl

theorem dictGet_mem {d : List (String × List ℚ)} {k : String}
    (h : dictGet d k ≠ []) : (k, dictGet d k) ∈ d := by
  induction d with
  | nil => simp [dictGet] at h
  | cons hd0 tl ih =>
    obtain ⟨k0, vs0⟩ := hd0
    by_cases hk : k0 = k
    · subst hk
      simp [dictGet]
    · simp only [dictGet, if_neg hk] at h ⊢
      exact List.mem_cons_of_mem _ (ih h)

theorem trend_data_list_spec (ws : List Review) :
    (∀ b ∈ trend_data_list ws,
      monthRatings ws b.month ≠ []
      ∧ b.avg_rating =
          round2 ((monthRatings ws b.month).sum / (monthRatings ws b.month).length)
      ∧ b.count = (monthRatings ws b.month).length)
    ∧ (∀ m : String, monthRatings ws m ≠ [] →
        ∃ b ∈ trend_data_list ws, b.month = m) := by
  constructor
  · intro b hb
    simp only [trend_data_list, List.mem_map, List.mem_filter] at hb
    obtain ⟨⟨k, vs⟩, ⟨hmem, hne⟩, rfl⟩ := hb
    have hmem' : (k, vs) ∈ trendDict ws :=
      (List.perm_insertionSort (fun a b => a.1 ≤ b.1) (trendDict ws)).mem_iff.mp hmem
    have hvs : monthRatings ws k = vs := by
      rw [← dictGet_trendDict]
      exact mem_dictGet (nodupKeys_trendDict ws) hmem'
    have hne' : vs ≠ [] := by simpa using hne
    exact ⟨by rw [hvs]; exact hne', by rw [hvs], by rw [hvs]⟩
  · intro m hm
    have hget : dictGet (trendDict ws) m = monthRatings ws m := dictGet_trendDict ws m
    have hne : dictGet (trendDict ws) m ≠ [] := by rw [hget]; exact hm
    have hmem : (m, dictGet (trendDict ws) m) ∈ trendDict ws := dictGet_mem hne
    have hmem2 : (m, dictGet (trendDict ws) m) ∈
        List.insertionSort (fun a b => a.1 ≤ b.1) (trendDict ws) :=
      (List.perm_insertionSort (fun a b => a.1 ≤ b.1) (trendDict ws)).mem_iff.mpr hmem
    refine ⟨⟨m, round2 ((dictGet (trendDict ws) m).sum / (dictGet (trendDict ws) m).length),
      (dictGet (trendDict ws) m).length⟩, ?_, rfl⟩
    simp only [trend_data_list, List.mem_map, List.mem_filter]
    exact ⟨(m, dictGet (trendDict ws) m), ⟨hmem2, by simpa using hne⟩, rfl⟩

/-- Claim C4 (amended): the summary payload contains no daily buckets; its
only time-bucketed series is the monthly `trend_data`, holding one bucket per
YYYY-MM month with at least one dated review in the window (months — and a
fortiori days — with zero reviews are absent), whose `avg_rating` is the
2-decimal-rounded mean over that month of (rating, with a missing rating
counted as 0) and whose `count` is that month's review count. -/
theorem c4_amended (reviews : List Review) (company : Company)
    (so eo : Option PyDateTime) (now : PyDateTime) :
    (∀ b ∈ (get_review_summary_data reviews company so eo now).trend_data,
      monthRatings (windowedReviews reviews (resolvedWindow so eo now).1
          (resolvedWindow so eo now).2) b.month ≠ []
      ∧ b.avg_rating =
          round2 ((monthRatings (windowedReviews reviews (resolvedWindow so eo now).1
              (resolvedWindow so eo now).2) b.month).sum /
            (monthRatings (windowedReviews reviews (resolvedWindow so eo now).1
              (resolvedWindow so eo now).2) b.month).length)
      ∧ b.count = (monthRatings (windowedReviews reviews (resolvedWindow so eo now).1
          (resolvedWindow so eo now).2) b.month).length)
    ∧ (∀ m : String,
        monthRatings (windowedReviews reviews (resolvedWindow so eo now).1
          (resolvedWindow so eo now).2) m ≠ [] →
        ∃ b ∈ (get_review_summary_data reviews company so eo now).trend_data,
          b.month = m) := by
  simp only [get_review_summary_data]
  by_cases h : windowedReviews reviews (resolvedWindow so eo now).1
    (resolvedWindow so eo now).2 = []
  · rw [if_pos h, h]
    constructor
    · intro b hb
      simp at hb
    · intro m hm
      simp [monthRatings] at hm
  · rw [if_neg h]
    dsimp only
    exact trend_data_list_spec _

/-- Two reviews on different calendar days of one month inside a 7-day
window. -/
def c4Reviews : List Review :=
  [⟨1, none, some 5, none, some ⟨2026, 3, 1, 12, 0, 0⟩⟩,
   ⟨2, none, some 1, none, some ⟨2026, 3, 5, 12, 0, 0⟩⟩]

/-- Claim C4 counterexample: over the 7-day window 2026-03-01 .. 2026-03-07
with reviews on two distinct days, the payload's only time series is a single
monthly bucket "2026-03" — not seven daily buckets with zero-review days
carrying null ratings. -/
theorem c4_counterexample :
    (get_review_summary_data c4Reviews ⟨"ACME", 0, 0⟩ (some ⟨2026, 3, 1, 0, 0, 0⟩)
        (some ⟨2026, 3, 7, 23, 59, 59⟩) ⟨2026, 4, 1, 0, 0, 0⟩).trend_data =
      [⟨"2026-03", 3, 2⟩] := by
  with_unfolding_all decide

/-- One windowed review in 2026-03. -/
def c4WitReviews : List Review :=
  [⟨1, none, some 5, none, some ⟨2026, 3, 1, 12, 0, 0⟩⟩]

/-- Witness for C4 (amended) on a concrete one-review window. -/
theorem c4_witness :
    ((⟨"2026-03", 5, 1⟩ : TrendPoint) ∈
      (get_review_summary_data c4WitReviews ⟨"ACME", 0, 0⟩ (some ⟨2026, 3, 1, 0, 0, 0⟩)
        (some ⟨2026, 3, 7, 23, 59, 59⟩) ⟨2026, 4, 1, 0, 0, 0⟩).trend_data)
    ∧ (monthRatings (windowedReviews c4WitReviews
        (resolvedWindow (some ⟨2026, 3, 1, 0, 0, 0⟩) (some ⟨2026, 3, 7, 23, 59, 59⟩)
          ⟨2026, 4, 1, 0, 0, 0⟩).1
        (resolvedWindow (some ⟨2026, 3, 1, 0, 0, 0⟩) (some ⟨2026, 3, 7, 23, 59, 59⟩)
          ⟨2026, 4, 1, 0, 0, 0⟩).2) (⟨"2026-03", 5, 1⟩ : TrendPoint).month ≠ []
      ∧ (⟨"2026-03", 5, 1⟩ : TrendPoint).avg_rating =
          round2 ((monthRatings (windowedReviews c4WitReviews
              (resolvedWindow (some ⟨2026, 3, 1, 0, 0, 0⟩) (some ⟨2026, 3, 7, 23, 59, 59⟩)
                ⟨2026, 4, 1, 0, 0, 0⟩).1
              (resolvedWindow (some ⟨2026, 3, 1, 0, 0, 0⟩) (some ⟨2026, 3, 7, 23, 59, 59⟩)
                ⟨2026, 4, 1, 0, 0, 0⟩).2) (⟨"2026-03", 5, 1⟩ : TrendPoint).month).sum /
            (monthRatings (windowedReviews c4WitReviews
              (resolvedWindow (some ⟨2026, 3, 1, 0, 0, 0⟩) (some ⟨2026, 3, 7, 23, 59, 59⟩)
                ⟨2026, 4, 1, 0, 0, 0⟩).1
              (resolvedWindow (some ⟨2026, 3, 1, 0, 0, 0⟩) (some ⟨2026, 3, 7, 23, 59, 59⟩)
                ⟨2026, 4, 1, 0, 0, 0⟩).2) (⟨"2026-03", 5, 1⟩ : TrendPoint).month).length)
      ∧ (⟨"2026-03", 5, 1⟩ : TrendPoint).count =
          (monthRatings (windowedReviews c4WitReviews
            (resolvedWindow (some ⟨2026, 3, 1, 0, 0, 0⟩) (some ⟨2026, 3, 7, 23, 59, 59⟩)
              ⟨2026, 4, 1, 0, 0, 0⟩).1
            (resolvedWindow (some ⟨2026, 3, 1, 0, 0, 0⟩) (some ⟨2026, 3, 7, 23, 59, 59⟩)
              ⟨2026, 4, 1, 0, 0, 0⟩).2) (⟨"2026-03", 5, 1⟩ : TrendPoint).month).length) :=
  ⟨by with_unfolding_all decide,
   (c4_amended c4WitReviews ⟨"ACME", 0, 0⟩ (some ⟨2026, 3, 1, 0, 0, 0⟩)
      (some ⟨2026, 3, 7, 23, 59, 59⟩) ⟨2026, 4, 1, 0, 0, 0⟩).1 ⟨"2026-03", 5, 1⟩
      (by with_unfolding_all decide)⟩
